import Mathlib

/-
Verification of the sql-chatbot core pipeline: a shallow embedding of
`run_sql` (src/db_utils.py), `generate_query_plan` (src/llm_utils.py) and
`execute_visualization` (src/viz_utils.py), together with theorems settling
the specification claims.  External collaborators (the SQLite store, the
upstream model, `json.loads`, the snippet interpreter) are oracle
parameters; the string manipulation is embedded character by character.
-/

/-- Python whitespace for str.strip and str.lstrip (the principal ASCII set
used by CPython: space, tab, newline, carriage return, vertical tab,
form feed). -/
def isPySpace (c : Char) : Bool :=
  c = ' ' || c = '\t' || c = '\n' || c = '\r' || c = '\x0b' || c = '\x0c'

/-- Python str.strip(): drop leading and trailing whitespace. -/
def pyStrip (l : List Char) : List Char :=
  ((l.dropWhile isPySpace).reverse.dropWhile isPySpace).reverse

/-- Python str.strip() at the String level. -/
def pyStripStr (s : String) : String :=
  String.mk (pyStrip s.toList)

/-- Python str.lower() restricted to ASCII letters (the only characters the
embedded SQL keywords need). -/
def asciiLower (c : Char) : Char :=
  if 'A' ≤ c ∧ c ≤ 'Z' then Char.ofNat (c.toNat + 32) else c

/-- Everything after the first newline, or empty when there is none: models
the Python idiom `"\n".join(s.split("\n")[1:])` used in run_sql's
comment-stripping loop. -/
def dropFirstLine (l : List Char) : List Char :=
  (l.dropWhile (fun c => !(c = '\n'))).tail

/-- One fuel-indexed pass of run_sql's `while sql_lower.startswith("--")`
loop (src/db_utils.py lines 101-102).  Each iteration removes the first
line and left-strips, which strictly shortens a nonempty list, so fuel
equal to the initial length always suffices and the function agrees with
the source's while loop. -/
def stripDashCommentsAux : Nat → List Char → List Char
  | 0, l => l
  | n + 1, l =>
      if ['-', '-'].isPrefixOf l then
        stripDashCommentsAux n ((dropFirstLine l).dropWhile isPySpace)
      else l

/-- run_sql's loop removing consecutive leading `--` comment lines. -/
def stripDashComments (l : List Char) : List Char :=
  stripDashCommentsAux l.length l

/-- The suffix after the first occurrence of `pat`, or `none` when `pat`
does not occur: models Python `s.split(pat, 1)[1]`, whose subscript raises
IndexError exactly when the split found no separator. -/
def afterFirst (pat : List Char) : List Char → Option (List Char)
  | [] => if pat.isEmpty then some [] else none
  | c :: rest =>
      if pat.isPrefixOf (c :: rest) then some ((c :: rest).drop pat.length)
      else afterFirst pat rest

/-- Substring test used only in theorem hypotheses (Python `pat in s`). -/
def containsSub (pat : List Char) : List Char → Bool
  | [] => pat.isEmpty
  | c :: rest => pat.isPrefixOf (c :: rest) || containsSub pat rest

/-- The comment-stripping prefix of run_sql (src/db_utils.py lines 95-104):
strip and lower the input, drop consecutive leading `--` comment lines,
then, when the text starts with a block comment opener, take what follows
the first `*/` (left-stripped and lowered).  `none` models the IndexError
raised by `sql_lower.split("*/", 1)[1]` when no `*/` exists. -/
def stripLeadingComments (sql : String) : Option (List Char) :=
  let lower := (pyStrip sql.toList).map asciiLower
  let afterDash := stripDashComments lower
  if ['/', '*'].isPrefixOf afterDash then
    (afterFirst ['*', '/'] afterDash).map
      (fun r => (r.dropWhile isPySpace).map asciiLower)
  else some afterDash

/-- The ways run_sql can fail: `unsafeQuery` is the source's
ValueError("Only SELECT queries are allowed"), `indexError` the IndexError
from the block-comment split, `executionError` an exception propagated
from the store (sqlite3). -/
inductive RunErr
  | unsafeQuery
  | indexError
  | executionError (msg : String)
deriving DecidableEq, Repr

/-- A statement sent to the data store, tagged by whether it was the
diagnostic EXPLAIN QUERY PLAN request or the actual query execution. -/
inductive StoreCall
  | explainCall (stmt : String)
  | execCall (stmt : String)
deriving DecidableEq, Repr

/-- Oracle for the SQLite store: the outcome of the EXPLAIN QUERY PLAN
request and of executing a statement, each either an exception message or
a success payload. -/
structure Store (α : Type) where
  explain : String → Except String Unit
  exec : String → Except String α

/-- The EXPLAIN QUERY PLAN statement run_sql sends first
(src/db_utils.py line 117). -/
def explainStmt (sql : String) : String :=
  "EXPLAIN QUERY PLAN " ++ pyStripStr sql

/-- Embedding of run_sql (src/db_utils.py lines 92-149).  Returns the
result together with the trace of statements issued to the store.
Validation happens before any store contact; a failing EXPLAIN propagates
as an exception (the source's `except` clause logs and re-raises), so the
original statement is then never executed. -/
def run_sql {α : Type} (store : Store α) (sql : String) :
    Except RunErr α × List StoreCall :=
  match stripLeadingComments sql with
  | none => (Except.error RunErr.indexError, [])
  | some t =>
      if "select".toList.isPrefixOf t then
        match store.explain (explainStmt sql) with
        | Except.error msg =>
            (Except.error (RunErr.executionError msg),
             [StoreCall.explainCall (explainStmt sql)])
        | Except.ok _ =>
            match store.exec (pyStripStr sql) with
            | Except.error msg =>
                (Except.error (RunErr.executionError msg),
                 [StoreCall.explainCall (explainStmt sql),
                  StoreCall.execCall (pyStripStr sql)])
            | Except.ok a =>
                (Except.ok a,
                 [StoreCall.explainCall (explainStmt sql),
                  StoreCall.execCall (pyStripStr sql)])
      else (Except.error RunErr.unsafeQuery, [])

/-- A store that accepts every request, used to exercise the validator. -/
def storeOk : Store Unit :=
  ⟨fun _ => Except.ok (), fun _ => Except.ok ()⟩

/-- A store whose EXPLAIN QUERY PLAN request fails while plain execution
would succeed, used to exercise the diagnostic-failure path. -/
def storeExplainFail : Store Unit :=
  ⟨fun _ => Except.error "explain unsupported", fun _ => Except.ok ()⟩

/-- JSON values as produced by Python json.loads: the `obj` constructor is
what `isinstance(plan, dict)` recognizes. -/
inductive Json
  | null
  | bool (b : Bool)
  | num (n : Int)
  | str (s : String)
  | arr (xs : List Json)
  | obj (fields : List (String × Json))

/-- Whether a parsed JSON value is a mapping (Python dict). -/
def Json.isObj : Json → Bool
  | Json.obj _ => true
  | _ => false

/-- The errors generate_query_plan raises: `emptyResponse` is
ValueError("LLM returned an empty response"), `notJsonOrSql` the
ValueError("LLM response is neither valid JSON nor SQL...") carrying a
200-character preview of the content. -/
inductive PlanErr
  | emptyResponse
  | notJsonOrSql (preview : String)
deriving DecidableEq, Repr

/-- Python split on a single newline: "a\nb" gives ["a","b"], the empty
string gives [""]. -/
def splitLines : List Char → List (List Char)
  | [] => [[]]
  | c :: rest =>
      if c = '\n' then [] :: splitLines rest
      else
        match splitLines rest with
        | [] => [[c]]
        | line :: more => (c :: line) :: more

/-- A line whose stripped form opens with a triple backtick, the closing
fence condition of generate_query_plan (src/llm_utils.py line 151). -/
def isFenceClose (line : List Char) : Bool :=
  "```".toList.isPrefixOf (pyStrip line)

/-- Index of the first closing-fence line at position 1 or later, or the
number of lines when none exists (the source's end_idx). -/
def fenceEndIdx (lines : List (List Char)) : Nat :=
  match ((List.range lines.length).drop 1).find?
      (fun i => isFenceClose (lines.getD i [])) with
  | some i => i
  | none => lines.length

/-- The markdown-fence removal of generate_query_plan (src/llm_utils.py
lines 144-155): when the stripped content opens with a triple backtick,
keep the lines strictly between the first line and the first closing
fence, rejoined and stripped; otherwise leave the content unchanged. -/
def stripFences (content : List Char) : List Char :=
  if "```".toList.isPrefixOf content then
    let lines := splitLines content
    let endIdx := fenceEndIdx lines
    pyStrip (List.intercalate ['\n'] ((lines.drop 1).take (endIdx - 1)))
  else content

/-- The content generate_query_plan hands to json.loads: the raw response
stripped, then fence-stripped. -/
def normalizeContent (content : String) : List Char :=
  stripFences (pyStrip content.toList)

/-- The sql-value cleanup of generate_query_plan (src/llm_utils.py lines
169-171): when the parsed mapping holds a string under the key "sql",
that string is stripped; every other entry is kept unchanged. -/
def stripSqlValue : List (String × Json) → List (String × Json)
  | [] => []
  | kv :: rest =>
      (if kv.1 == "sql" then
        match kv.2 with
        | Json.str s => (kv.1, Json.str (pyStripStr s))
        | v => (kv.1, v)
      else kv) :: stripSqlValue rest

/-- The extraction cascade of generate_query_plan (src/llm_utils.py lines
159-203), with json.loads as the oracle `loads` (`none` models
JSONDecodeError).  A parsed mapping is returned with its "sql" string
stripped; parsed non-mapping JSON falls back to the raw text as sql; on a
parse failure a candidate whose lowered, stripped text opens with
"select" is returned verbatim as sql, anything else raises the
neither-JSON-nor-SQL ValueError with a 200-character preview. -/
def extract_plan (loads : String → Option Json) (content : String) :
    Except PlanErr (List (String × Json)) :=
  let c := normalizeContent content
  match loads (String.mk c) with
  | some (Json.obj fields) => Except.ok (stripSqlValue fields)
  | some _ => Except.ok [("sql", Json.str (String.mk (pyStrip c)))]
  | none =>
      if "select".toList.isPrefixOf (pyStrip (c.map asciiLower)) then
        Except.ok [("sql", Json.str (String.mk (pyStrip c)))]
      else Except.error (PlanErr.notJsonOrSql (String.mk (c.take 200)))

/-- Embedding of generate_query_plan (src/llm_utils.py lines 138-207).
`model` maps the index of an upstream request to the response content
(`none` models a None message).  The source issues exactly one
chat-completion request, so only `model 0` is consulted; the second
component counts the upstream requests issued.  A None or empty content
raises the empty-response ValueError, otherwise the extraction cascade
runs on the single response. -/
def generate_query_plan (loads : String → Option Json)
    (model : Nat → Option String) :
    Except PlanErr (List (String × Json)) × Nat :=
  match model 0 with
  | none => (Except.error PlanErr.emptyResponse, 1)
  | some content =>
      if content = "" then (Except.error PlanErr.emptyResponse, 1)
      else (extract_plan loads content, 1)

/-- A json.loads oracle for inputs on which real json.loads raises
JSONDecodeError (prose and bare SQL). -/
def loadsNone : String → Option Json := fun _ => none

/-- A json.loads oracle matching the real parse of the array text
"[1, 2]". -/
def loadsArr : String → Option Json :=
  fun s => if s = "[1, 2]" then some (Json.arr [Json.num 1, Json.num 2])
           else none

/-- A json.loads oracle matching the real parse of an object text without
an "sql" key. -/
def loadsObjNoSql : String → Option Json :=
  fun s => if s = "\x7b\x22a\x22: 1\x7d" then some (Json.obj [("a", Json.num 1)])
           else none

/-- Python str.splitlines restricted to newline separators: like splitting
on a single newline but without a trailing empty line, and the empty
string yields no lines. -/
def pySplitlines (l : List Char) : List (List Char) :=
  if l = [] then []
  else if l.getLast? = some '\n' then (splitLines l).dropLast
  else splitLines l

/-- A line whose stripped form opens with an import-style directive, the
removal condition of execute_visualization (src/viz_utils.py lines
22-25). -/
def isImportLine (line : List Char) : Bool :=
  "import ".toList.isPrefixOf (pyStrip line) ||
    "from ".toList.isPrefixOf (pyStrip line)

/-- The import-stripping preprocessing of execute_visualization: drop
every line opening with `import ` or `from ` and rejoin the rest. -/
def strip_import_lines (code : String) : String :=
  String.mk (List.intercalate ['\n']
    ((pySplitlines code.toList).filter (fun line => !(isImportLine line))))

/-- The keys of the exec_globals dict handed to exec by
execute_visualization (src/viz_utils.py lines 28-34), in source order:
the result DataFrame, the two plotly handles, the initially-None fig
slot, and the full Python builtins. -/
def exec_globals_keys : List String :=
  ["df", "px", "go", "fig", "__builtins__"]

/-- Oracle outcome of exec-ing the snippet in the given scope: either an
exception with its message, or completion with a record of whether the
fig slot was set to a non-None value. -/
inductive SnippetRun
  | raises (msg : String)
  | completes (figProduced : Bool)
deriving DecidableEq, Repr

/-- What execute_visualization displays: whether st.plotly_chart rendered
a figure, the st.error message if any, whether the (import-stripped)
snippet was echoed with st.code, and whether the DataFrame preview was
shown with st.dataframe. -/
structure VizOutcome where
  rendered : Bool
  errorMsg : Option String
  shownCode : Bool
  shownDataframe : Bool
deriving DecidableEq, Repr

/-- Embedding of execute_visualization (src/viz_utils.py lines 16-54).
`run` is the snippet interpreter oracle, applied to the names bound in
the exec scope and the import-stripped code.  An exception is caught and
degraded to an error display with the code and the DataFrame preview; an
unset fig slot yields an error display with the code only; otherwise the
figure is rendered.  The function always returns (the source never
re-raises). -/
def execute_visualization (run : List String → String → SnippetRun)
    (viz_code : String) : VizOutcome :=
  match run exec_globals_keys (strip_import_lines viz_code) with
  | SnippetRun.raises msg =>
      ⟨false, some ("Error executing visualization: " ++ msg), true, true⟩
  | SnippetRun.completes false =>
      ⟨false, some "Error: Generated code did not create a figure", true, false⟩
  | SnippetRun.completes true =>
      ⟨true, none, false, false⟩

/-- Claim C4: for every SQL string whose comment stripping (leading
whitespace, consecutive leading dash-dash comment lines, a single leading
block comment) completes and leaves text that does not start
case-insensitively with `select`, run_sql raises the only-SELECT
ValueError and no statement is ever issued to the store. -/
theorem c4_nonselect_rejected {α : Type} (store : Store α) (sql : String)
    (t : List Char)
    (h1 : stripLeadingComments sql = some t)
    (h2 : "select".toList.isPrefixOf t = false) :
    run_sql store sql = (Except.error RunErr.unsafeQuery, []) := by
  have hc : ¬ ("select".toList.isPrefixOf t = true) := by rw [h2]; decide
  simp only [run_sql, h1]
  rw [if_neg hc]

/-- Witness for Claim C4 at a comment-disguised DROP statement: the
stripping succeeds, the stripped text is not a SELECT, and run_sql
rejects it without contacting the store. -/
theorem c4_witness :
    stripLeadingComments "-- note\nDROP TABLE data;" =
      some "drop table data;".toList ∧
    run_sql storeOk "-- note\nDROP TABLE data;" =
      (Except.error RunErr.unsafeQuery, []) :=
  ⟨by decide,
   c4_nonselect_rejected storeOk "-- note\nDROP TABLE data;"
     "drop table data;".toList (by decide) (by decide)⟩

/-- Claim C3 counterexample: the string "select 1; drop table data;"
contains two statements, a non-read operation, and is not rejected by
validation — run_sql sends both the diagnostic request and the statement
itself to the store, contradicting the claimed single-statement,
read-only, single-table rejection. -/
theorem c3_counterexample :
    run_sql storeOk "select 1; drop table data;" =
      (Except.ok (),
       [StoreCall.explainCall "EXPLAIN QUERY PLAN select 1; drop table data;",
        StoreCall.execCall "select 1; drop table data;"]) := rfl

/-- Claim C3 as amended: the validation run_sql performs before execution
checks only that the comment-stripped text starts case-insensitively with
`select`; every string passing that check reaches the store (the trace
opens with the diagnostic request), regardless of multiple statements,
non-read operations after the leading select, or references to other
tables. -/
theorem c3_amended_prefix_only_validation {α : Type} (store : Store α)
    (sql : String) (t : List Char)
    (h1 : stripLeadingComments sql = some t)
    (h2 : "select".toList.isPrefixOf t = true) :
    ∃ rest, (run_sql store sql).2 =
      StoreCall.explainCall (explainStmt sql) :: rest := by
  simp only [run_sql, h1]
  rw [if_pos h2]
  cases hex : store.explain (explainStmt sql) with
  | error msg => exact ⟨[], rfl⟩
  | ok u =>
      cases hrun : store.exec (pyStripStr sql) with
      | error msg => exact ⟨[StoreCall.execCall (pyStripStr sql)], rfl⟩
      | ok a => exact ⟨[StoreCall.execCall (pyStripStr sql)], rfl⟩

/-- Witness for the amended Claim C3: the two-statement string passes the
select-prefix check and the store is contacted. -/
theorem c3_witness :
    stripLeadingComments "select 1; drop table data;" =
      some "select 1; drop table data;".toList ∧
    ∃ rest, (run_sql storeOk "select 1; drop table data;").2 =
      StoreCall.explainCall (explainStmt "select 1; drop table data;") :: rest :=
  ⟨by decide,
   c3_amended_prefix_only_validation storeOk "select 1; drop table data;"
     "select 1; drop table data;".toList (by decide) (by decide)⟩

/-- Claim C8 counterexample: against a store whose EXPLAIN QUERY PLAN
request fails while plain execution would succeed, run_sql propagates the
diagnostic failure as an exception and never executes the original
statement — the failure is fatal, not non-fatal. -/
theorem c8_counterexample :
    run_sql storeExplainFail "select 2 from data;" =
      (Except.error (RunErr.executionError "explain unsupported"),
       [StoreCall.explainCall "EXPLAIN QUERY PLAN select 2 from data;"]) ∧
    storeExplainFail.exec "select 2 from data;" = Except.ok () :=
  ⟨rfl, rfl⟩

/-- Claim C8 as amended: for every validated SQL string, run_sql requests
the diagnostic query plan first, and a failure of that request is fatal:
the store exception propagates and the original statement is never
executed. -/
theorem c8_amended_explain_failure_fatal {α : Type} (store : Store α)
    (sql : String) (t : List Char) (msg : String)
    (h1 : stripLeadingComments sql = some t)
    (h2 : "select".toList.isPrefixOf t = true)
    (h3 : store.explain (explainStmt sql) = Except.error msg) :
    run_sql store sql =
      (Except.error (RunErr.executionError msg),
       [StoreCall.explainCall (explainStmt sql)]) ∧
    ∀ s, StoreCall.execCall s ∉ (run_sql store sql).2 := by
  have hrun : run_sql store sql =
      (Except.error (RunErr.executionError msg),
       [StoreCall.explainCall (explainStmt sql)]) := by
    simp only [run_sql, h1]
    rw [if_pos h2, h3]
  refine ⟨hrun, ?_⟩
  intro s
  rw [hrun]
  simp

/-- Witness for the amended Claim C8: a concrete validated statement
against a store with a failing diagnostic request. -/
theorem c8_witness :
    stripLeadingComments "select 1 from data;" =
      some "select 1 from data;".toList ∧
    (run_sql storeExplainFail "select 1 from data;" =
      (Except.error (RunErr.executionError "explain unsupported"),
       [StoreCall.explainCall (explainStmt "select 1 from data;")]) ∧
     ∀ s, StoreCall.execCall s ∉
       (run_sql storeExplainFail "select 1 from data;").2) :=
  ⟨by decide,
   c8_amended_explain_failure_fatal storeExplainFail "select 1 from data;"
     "select 1 from data;".toList "explain unsupported"
     (by decide) (by decide) rfl⟩

/-- Shared fallback evaluation: when json.loads fails and the lowered,
stripped content opens with `select`, extract_plan returns the stripped
candidate verbatim as the sql of a single-key plan. -/
theorem extract_plan_select_fallback (loads : String → Option Json)
    (content : String)
    (h1 : loads (String.mk (normalizeContent content)) = none)
    (h2 : "select".toList.isPrefixOf
        (pyStrip ((normalizeContent content).map asciiLower)) = true) :
    extract_plan loads content =
      Except.ok [("sql", Json.str (String.mk (pyStrip (normalizeContent content))))] := by
  simp only [extract_plan, h1]
  rw [if_pos h2]

/-- Entries left untouched by the sql-value cleanup: a mapping without an
"sql" key passes through stripSqlValue unchanged. -/
theorem stripSqlValue_eq_self (fields : List (String × Json))
    (h : fields.all (fun kv => !(kv.1 == "sql")) = true) :
    stripSqlValue fields = fields := by
  induction fields with
  | nil => rfl
  | cons kv rest ih =>
      simp only [List.all_cons, Bool.and_eq_true] at h
      obtain ⟨h1, h2⟩ := h
      rw [Bool.not_eq_true'] at h1
      simp only [stripSqlValue]
      rw [if_neg (by rw [h1]; decide), ih h2]

/-- Claim C1 counterexample: on a question whose single plan-generation
attempt yields unparseable content, generate_query_plan raises the
neither-JSON-nor-SQL ValueError after exactly one upstream request — no
retry with a stricter instruction occurs and no RetryExhaustedError
exists in the code. -/
theorem c1_counterexample :
    generate_query_plan loadsNone (fun _ => some "I cannot parse this request.") =
      (Except.error (PlanErr.notJsonOrSql "I cannot parse this request."), 1) := rfl

/-- Claim C1 as amended: generate_query_plan issues exactly one upstream
model request per question and never retries — its outcome depends only
on the first response, and a failed attempt surfaces immediately as a
ValueError (empty response or neither-JSON-nor-SQL). -/
theorem c1_amended_single_request (loads : String → Option Json)
    (model : Nat → Option String) :
    (generate_query_plan loads model).2 = 1 ∧
    generate_query_plan loads model =
      generate_query_plan loads (fun _ => model 0) := by
  constructor
  · unfold generate_query_plan
    cases model 0 with
    | none => rfl
    | some content =>
        dsimp only
        split <;> rfl
  · rfl

/-- Witness for the amended Claim C1 at a concrete oracle and response
stream: one request, outcome fixed by the first response. -/
theorem c1_witness :
    (generate_query_plan loadsNone (fun _ => some "select 9 from data")).2 = 1 ∧
    generate_query_plan loadsNone (fun _ => some "select 9 from data") =
      generate_query_plan loadsNone
        (fun _ => (fun _ => some "select 9 from data") 0) :=
  c1_amended_single_request loadsNone (fun _ => some "select 9 from data")

/-- Claim C5 counterexample: the candidate "select 1" contains no `from`
clause, yet extraction returns it as the plan instead of rejecting it as
truncated — no retry is signalled at that step or anywhere. -/
theorem c5_counterexample :
    generate_query_plan loadsNone (fun _ => some "select 1") =
      (Except.ok [("sql", Json.str "select 1")], 1) := rfl

/-- Claim C5 as amended: extraction performs no from-clause truncation
check and signals no retry — a non-JSON candidate whose lowered text
opens with `select` is returned as the plan even when it contains no
case-insensitive `from` anywhere. -/
theorem c5_amended_no_from_check (loads : String → Option Json)
    (content : String)
    (h1 : loads (String.mk (normalizeContent content)) = none)
    (h2 : "select".toList.isPrefixOf
        (pyStrip ((normalizeContent content).map asciiLower)) = true)
    (_h3 : containsSub "from".toList
        ((normalizeContent content).map asciiLower) = false) :
    extract_plan loads content =
      Except.ok [("sql", Json.str (String.mk (pyStrip (normalizeContent content))))] :=
  extract_plan_select_fallback loads content h1 h2

/-- Witness for the amended Claim C5: the from-less candidate "select 1"
is accepted as the plan. -/
theorem c5_witness :
    loadsNone (String.mk (normalizeContent "select 1")) = none ∧
    containsSub "from".toList ((normalizeContent "select 1").map asciiLower) = false ∧
    extract_plan loadsNone "select 1" = Except.ok [("sql", Json.str "select 1")] :=
  ⟨rfl, by decide,
   c5_amended_no_from_check loadsNone "select 1" rfl (by decide) (by decide)⟩

/-- Claim C6 counterexample: the response "[1, 2]" parses as JSON to an
array (not a mapping), and generate_query_plan returns the raw JSON text
itself as the plan sql value — the JSON step does produce a plan and the
raw text is returned. -/
theorem c6_counterexample :
    generate_query_plan loadsArr (fun _ => some "[1, 2]") =
      (Except.ok [("sql", Json.str "[1, 2]")], 1) := rfl

/-- Claim C6 as amended: when the normalized response parses to JSON that
is not a mapping, extraction returns the whole normalized text as the
plan sql value; when it parses to a mapping without an "sql" key, that
mapping itself is returned unchanged as the plan. -/
theorem c6_amended_json_step_behavior (loads : String → Option Json)
    (content : String) :
    (∀ j, loads (String.mk (normalizeContent content)) = some j →
      j.isObj = false →
      extract_plan loads content =
        Except.ok [("sql", Json.str (String.mk (pyStrip (normalizeContent content))))]) ∧
    (∀ fields, loads (String.mk (normalizeContent content)) = some (Json.obj fields) →
      fields.all (fun kv => !(kv.1 == "sql")) = true →
      extract_plan loads content = Except.ok fields) := by
  constructor
  · intro j hj hobj
    simp only [extract_plan, hj]
    cases j with
    | obj fields => simp [Json.isObj] at hobj
    | null => rfl
    | bool b => rfl
    | num n => rfl
    | str s => rfl
    | arr xs => rfl
  · intro fields hj hno
    simp only [extract_plan, hj]
    rw [stripSqlValue_eq_self fields hno]

/-- Witness for the amended Claim C6: an array response is echoed back as
the sql value, and an object response without an "sql" key is returned
as-is. -/
theorem c6_witness :
    loadsArr (String.mk (normalizeContent "[1, 2]")) =
      some (Json.arr [Json.num 1, Json.num 2]) ∧
    extract_plan loadsArr "[1, 2]" = Except.ok [("sql", Json.str "[1, 2]")] ∧
    loadsObjNoSql (String.mk (normalizeContent "\x7b\x22a\x22: 1\x7d")) =
      some (Json.obj [("a", Json.num 1)]) ∧
    extract_plan loadsObjNoSql "\x7b\x22a\x22: 1\x7d" =
      Except.ok [("a", Json.num 1)] :=
  ⟨rfl,
   (c6_amended_json_step_behavior loadsArr "[1, 2]").1
     (Json.arr [Json.num 1, Json.num 2]) rfl rfl,
   rfl,
   (c6_amended_json_step_behavior loadsObjNoSql "\x7b\x22a\x22: 1\x7d").2
     [("a", Json.num 1)] rfl (by decide)⟩

/-- Claim C7 counterexample: a bare SELECT without a terminating
semicolon is accepted through the non-JSON fallback and returned exactly
as given — no semicolon is appended, so the plan sql does not end in
one. -/
theorem c7_counterexample :
    generate_query_plan loadsNone (fun _ => some "select 1 from data") =
      (Except.ok [("sql", Json.str "select 1 from data")], 1) ∧
    "select 1 from data".toList.getLast? ≠ some ';' :=
  ⟨rfl, by decide⟩

/-- Claim C7 as amended: a response accepted through the non-JSON
fallback yields a single-key plan whose sql is the stripped candidate
verbatim, with no viz_code and no semicolon normalization — the sql ends
in a semicolon only when the candidate already did. -/
theorem c7_amended_verbatim_fallback (loads : String → Option Json)
    (content : String)
    (h1 : loads (String.mk (normalizeContent content)) = none)
    (h2 : "select".toList.isPrefixOf
        (pyStrip ((normalizeContent content).map asciiLower)) = true) :
    extract_plan loads content =
      Except.ok [("sql", Json.str (String.mk (pyStrip (normalizeContent content))))] :=
  extract_plan_select_fallback loads content h1 h2

/-- Witness for the amended Claim C7: a bare SELECT statement is returned
verbatim as a one-key plan. -/
theorem c7_witness :
    loadsNone (String.mk (normalizeContent "select 2 from data")) = none ∧
    extract_plan loadsNone "select 2 from data" =
      Except.ok [("sql", Json.str "select 2 from data")] :=
  ⟨rfl, c7_amended_verbatim_fallback loadsNone "select 2 from data" rfl (by decide)⟩

/-- Claim C10: on an input that, after removal of leading dash-dash
comment lines, begins with a block-comment opener but contains no closing
marker, run_sql terminates with the IndexError from the comment-stripping
split itself — not with the only-SELECT ValueError or a store error — and
nothing is executed against the store. -/
theorem c10_unterminated_block_comment {α : Type} (store : Store α) :
    run_sql store "/* diagnostic comment select 1" =
      (Except.error RunErr.indexError, []) := rfl

/-- Witness for Claim C10 at a concrete store. -/
theorem c10_witness :
    run_sql storeOk "/* diagnostic comment select 1" =
      (Except.error RunErr.indexError, []) :=
  c10_unterminated_block_comment storeOk

/-- Claim C2 counterexample: the scope handed to exec binds
`__builtins__` (the full Python builtins) as a fifth name, so it does not
bind exactly the three names df, px, go plus the fig slot. -/
theorem c2_counterexample :
    "__builtins__" ∈ exec_globals_keys ∧
    exec_globals_keys ≠ ["df", "px", "go", "fig"] ∧
    exec_globals_keys.length = 5 := by decide

/-- Claim C2 as amended: the execution scope binds exactly the five names
df, px, go, the initially-unset fig slot, and `__builtins__` carrying the
full Python builtins (through which the snippet can reach the file system
and process environment); the snippet interpreter is consulted only at
that scope and the import-stripped code, nothing else. -/
theorem c2_amended_scope_bindings :
    exec_globals_keys = ["df", "px", "go", "fig", "__builtins__"] ∧
    ∀ (r r' : List String → String → SnippetRun) (code : String),
      r exec_globals_keys (strip_import_lines code) =
        r' exec_globals_keys (strip_import_lines code) →
      execute_visualization r code = execute_visualization r' code := by
  refine ⟨rfl, ?_⟩
  intro r r' code h
  unfold execute_visualization
  rw [h]

/-- Witness for the amended Claim C2: two interpreters agreeing at the
exec scope produce the same display outcome. -/
theorem c2_witness :
    exec_globals_keys = ["df", "px", "go", "fig", "__builtins__"] ∧
    execute_visualization (fun _ _ => SnippetRun.completes true) "fig3 = 1" =
      execute_visualization (fun _ c => SnippetRun.completes (c = c)) "fig3 = 1" :=
  ⟨c2_amended_scope_bindings.1,
   c2_amended_scope_bindings.2 (fun _ _ => SnippetRun.completes true)
     (fun _ c => SnippetRun.completes (c = c)) "fig3 = 1" (by simp)⟩

/-- Claim C9 counterexample: when the snippet completes without setting
the fig slot, execute_visualization shows the error message and the
offending code but not the raw tabular result, and returns a display
outcome instead of raising SandboxError. -/
theorem c9_counterexample :
    execute_visualization (fun _ _ => SnippetRun.completes false) "x = 1" =
      ⟨false, some "Error: Generated code did not create a figure",
       true, false⟩ ∧
    (execute_visualization (fun _ _ => SnippetRun.completes false)
        "x = 1").shownDataframe = false :=
  ⟨rfl, rfl⟩

/-- Claim C9 as amended: when the fig slot remains unset the function
displays the no-figure error and the offending code only (not the
tabular result) and returns without raising; when the snippet raises, the
exception is caught and surfaced as an error display with the code and
the DataFrame preview — in both cases a recoverable display outcome is
returned, never a process-fatal failure. -/
theorem c9_amended_diagnostic_display
    (run : List String → String → SnippetRun) (code : String) (msg : String) :
    (run exec_globals_keys (strip_import_lines code) =
        SnippetRun.completes false →
      execute_visualization run code =
        ⟨false, some "Error: Generated code did not create a figure",
         true, false⟩) ∧
    (run exec_globals_keys (strip_import_lines code) = SnippetRun.raises msg →
      execute_visualization run code =
        ⟨false, some ("Error executing visualization: " ++ msg),
         true, true⟩) := by
  constructor
  · intro h
    unfold execute_visualization
    rw [h]
  · intro h
    unfold execute_visualization
    rw [h]

/-- Witness for the amended Claim C9: a snippet that produces no figure
and a snippet that raises both degrade to display outcomes. -/
theorem c9_witness :
    execute_visualization (fun _ _ => SnippetRun.completes false) "y = 2" =
      ⟨false, some "Error: Generated code did not create a figure",
       true, false⟩ ∧
    execute_visualization (fun _ _ => SnippetRun.raises "boom") "y = 2" =
      ⟨false, some "Error executing visualization: boom", true, true⟩ :=
  ⟨(c9_amended_diagnostic_display (fun _ _ => SnippetRun.completes false)
      "y = 2" "boom").1 rfl,
   (c9_amended_diagnostic_display (fun _ _ => SnippetRun.raises "boom")
      "y = 2" "boom").2 rfl⟩
